import Mathlib

/-!
Verification of the kersplunk buffering/flush engine (`src/Logger.ts`).

The TypeScript class `Logger` is shallowly embedded as a state machine:

* `EngineState` holds the fields of a `Logger` instance (`_config`,
  `interceptor`, `_buffer`, `_bufferTimeout`) together with the parts of the
  JavaScript runtime the class interacts with: the current clock (`now`),
  the table of pending `setTimeout` callbacks (`timers`, with a fresh-id
  counter `nextTimerId`), the log of network submissions made through
  `fetch` (`requests`), and the log of `console.log` calls (`console`).
* Each method of the class becomes a function `EngineState → EngineState`.
  `fetch` outcomes are supplied by an oracle `ok : Nat → Bool` giving the
  success of the i-th request; a `false` outcome is the `catch` branch of
  `_flushBodyWithRetry`.
* JavaScript values passed as log details are modeled by a small `Json`
  type; `JSON.stringify` is modeled by `renderJson` (structurally faithful;
  string escaping and number formatting are simplified, no claim depends
  on the exact characters of the rendered text).
* Timer callbacks (`setTimeout(() => this.flush(), ...)` and the retry
  callback) are modeled by the scheduler step `fireNext`, which fires the
  earliest due timer.  Since every state mutation in `flush` happens
  before its `await`, and `fetch` itself mutates no engine state, the
  embedding settles each fetch at the point of the call.
-/

/-- Model of a JavaScript value as passed to `JSON.stringify`. -/
inductive Json where
  | null : Json
  | bool : Bool → Json
  | num : ℚ → Json
  | str : String → Json
  | arr : List Json → Json
  | obj : List (String × Json) → Json

/-- Rendering of a rational number; stands in for JavaScript number printing. -/
def ratStr (q : ℚ) : String :=
  toString q.num ++ "/" ++ toString q.den

/-- Minimal JSON string escaping (quote, backslash, newline). -/
def escapeJson (s : String) : String :=
  s.foldl (fun acc c =>
    acc ++ (if c = '"' then "\\\""
            else if c = '\\' then "\\\\"
            else if c = '\n' then "\\n"
            else String.singleton c)) ""

mutual

/-- Model of `JSON.stringify` on `Json` values. -/
def renderJson : Json → String
  | Json.null => "null"
  | Json.bool b => if b then "true" else "false"
  | Json.num q => ratStr q
  | Json.str s => "\"" ++ escapeJson s ++ "\""
  | Json.arr xs => "[" ++ String.intercalate "," (renderArr xs) ++ "]"
  | Json.obj fs => "\x7b" ++ String.intercalate "," (renderObj fs) ++ "\x7d"

/-- Renders the elements of a JSON array. -/
def renderArr : List Json → List String
  | [] => []
  | x :: xs => renderJson x :: renderArr xs

/-- Renders the key/value pairs of a JSON object. -/
def renderObj : List (String × Json) → List String
  | [] => []
  | kv :: fs => ("\"" ++ escapeJson kv.1 ++ "\":" ++ renderJson kv.2) :: renderObj fs

end

/-- JavaScript object-literal spread semantics for assoc lists: keys of `a`
keep their position, values overridden by `b` where `b` has the key; keys
only in `b` are appended in order. -/
def objMerge (a b : List (String × Json)) : List (String × Json) :=
  a.map (fun p => match b.lookup p.1 with
    | some v => (p.1, v)
    | none => p)
  ++ b.filter (fun q => (a.lookup q.1).isNone)

/-- The `SplunkMeta` type of `Logger.ts` (optional collector metadata). -/
structure SplunkMeta where
  time : Option ℚ
  host : Option String
  source : Option String
  sourcetype : Option String
  index : Option String
  fields : Option (List (String × Json))

/-- Spreading a `SplunkMeta` value: the key/value pairs its defined
(non-`undefined`) properties contribute, in declaration order. -/
def SplunkMeta.toFields (m : SplunkMeta) : List (String × Json) :=
  (match m.time with | some t => [("time", Json.num t)] | none => [])
  ++ (match m.host with | some h => [("host", Json.str h)] | none => [])
  ++ (match m.source with | some v => [("source", Json.str v)] | none => [])
  ++ (match m.sourcetype with | some v => [("sourcetype", Json.str v)] | none => [])
  ++ (match m.index with | some v => [("index", Json.str v)] | none => [])
  ++ (match m.fields with | some fs => [("fields", Json.obj fs)] | none => [])

/-- The `version.json` contents generated from `package.json` ("0.0.12"). -/
def version : String := "0.0.12"

/-- The `CoreLoggerConfiguration` type of `Logger.ts`.  `splunkMeta` is a
value or a factory; `errorFormatter` operates on the modeled details value
(the `err instanceof Error` branch of the default formatter concerns host
exception objects, which have no counterpart among modeled `Json` inputs). -/
structure CoreLoggerConfiguration where
  splunkUrl : String
  authToken : String
  maxBuffer : Nat
  throttleDuration : Nat
  splunkMeta : Option (SplunkMeta ⊕ (Unit → SplunkMeta))
  interceptor : Option (Json → Json)
  autoRetry : Bool
  autoRetryDuration : Nat
  enabled : Bool
  logToConsole : Bool
  errorFormatter : Option Json → Option Json

/-- The user-facing `LoggerConfiguration`: keys of `DEFAULT_CONFIG` are
optional, the rest mandatory. -/
structure LoggerConfiguration where
  splunkUrl : String
  authToken : String
  splunkMeta : Option (SplunkMeta ⊕ (Unit → SplunkMeta))
  interceptor : Option (Json → Json)
  maxBuffer : Option Nat
  throttleDuration : Option Nat
  autoRetry : Option Bool
  autoRetryDuration : Option Nat
  enabled : Option Bool
  logToConsole : Option Bool
  errorFormatter : Option (Option Json → Option Json)

/-- The default `errorFormatter` of `DEFAULT_CONFIG` on modeled inputs:
the non-`Error` branch, returning the argument unchanged. -/
def defaultErrorFormatter : Option Json → Option Json := fun err => err

/-- The constructor's `{...DEFAULT_CONFIG, ...config}` merge. -/
def mkCoreConfig (c : LoggerConfiguration) : CoreLoggerConfiguration :=
  { splunkUrl := c.splunkUrl
    authToken := c.authToken
    maxBuffer := c.maxBuffer.getD 50
    throttleDuration := c.throttleDuration.getD 250
    splunkMeta := c.splunkMeta
    interceptor := c.interceptor
    autoRetry := c.autoRetry.getD true
    autoRetryDuration := c.autoRetryDuration.getD 1000
    enabled := c.enabled.getD true
    logToConsole := c.logToConsole.getD false
    errorFormatter := c.errorFormatter.getD defaultErrorFormatter }

/-- Kind of a pending `setTimeout` callback: the debounced
`() => this.flush()` of `_startOrResetBufferTimeout`, or the
`() => this._flushBodyWithRetry(body)` scheduled after a failed fetch. -/
inductive TimerKind where
  | flushT : TimerKind
  | retryT : String → TimerKind

/-- One pending `setTimeout` entry of the runtime: its handle, its absolute
due time, and the callback it will run. -/
structure Timer where
  id : Nat
  due : Nat
  kind : TimerKind

/-- One `fetch` call issued by `_flushBodyWithRetry`: destination URL,
`Authorization` header, POST body and the clock value at the call. -/
structure SplunkRequest where
  url : String
  authHeader : String
  body : String
  sentAt : Nat

/-- A `Logger` instance together with the runtime facilities it uses. -/
structure EngineState where
  config : CoreLoggerConfiguration
  interceptor : Option (Json → Json)
  buffer : List String
  bufferTimeout : Option Nat
  now : Nat
  nextTimerId : Nat
  timers : List Timer
  requests : List SplunkRequest
  console : List (String × String)

/-- Runtime `clearTimeout`: removes the entry with the given handle
(a no-op on a stale handle). -/
def clearTimeoutTable (id : Nat) (ts : List Timer) : List Timer :=
  ts.filter (fun t => t.id != id)

/-- Runtime `setTimeout`: registers a callback due `delay` from now and
returns the fresh handle. -/
def setTimeoutE (k : TimerKind) (delay : Nat) (s : EngineState) : Nat × EngineState :=
  (s.nextTimerId,
   { s with timers := s.timers ++ [⟨s.nextTimerId, s.now + delay, k⟩],
            nextTimerId := s.nextTimerId + 1 })

namespace Logger

/-- Method `_clearBufferTimeout` of `Logger.ts`. -/
def _clearBufferTimeout (s : EngineState) : EngineState :=
  match s.bufferTimeout with
  | none => s
  | some id => { s with timers := clearTimeoutTable id s.timers, bufferTimeout := none }

/-- Method `_startOrResetBufferTimeout` of `Logger.ts`: clears the stored
timer handle if any, then arms a fresh flush timer for `throttleDuration`
from now and stores its handle. -/
def _startOrResetBufferTimeout (s : EngineState) : EngineState :=
  let s1 := match s.bufferTimeout with
    | none => s
    | some id => { s with timers := clearTimeoutTable id s.timers }
  let p := setTimeoutE TimerKind.flushT s1.config.throttleDuration s1
  { p.2 with bufferTimeout := some p.1 }

/-- The `fetch(this._config.splunkUrl, {method, headers, body})` call:
logs the request and reports the oracle's outcome for its index. -/
def fetchStep (ok : Nat → Bool) (body : String) (s : EngineState) : Bool × EngineState :=
  (ok s.requests.length,
   { s with requests :=
      s.requests ++ [⟨s.config.splunkUrl, "Splunk " ++ s.config.authToken, body, s.now⟩] })

/-- Method `_flushBodyWithRetry` of `Logger.ts`: attempt the fetch; on
failure, if `autoRetry` holds at that moment, schedule one retry of the
same body after `autoRetryDuration`. -/
def _flushBodyWithRetry (ok : Nat → Bool) (body : String) (s : EngineState) : EngineState :=
  let p := fetchStep ok body s
  if p.1 then p.2
  else if p.2.config.autoRetry then
    (setTimeoutE (TimerKind.retryT body) p.2.config.autoRetryDuration p.2).2
  else p.2

/-- Method `flush` of `Logger.ts`: cancel the pending timer; if the buffer
is empty return at once; otherwise join the buffer with newlines, reset it
to empty, and submit the batch. -/
def flush (ok : Nat → Bool) (s : EngineState) : EngineState :=
  let s1 := _clearBufferTimeout s
  if s1.buffer.isEmpty then s1
  else
    let body := String.intercalate "\n" s1.buffer
    let s2 := { s1 with buffer := [] }
    _flushBodyWithRetry ok body s2

/-- The event object `{logType, eventName, ...errorFormatter(details)}`.
Spreading a non-object contributes no modeled properties. -/
def buildEvent (fmt : Option Json → Option Json) (logType eventName : String)
    (details : Option Json) : Json :=
  Json.obj (objMerge [("logType", Json.str logType), ("eventName", Json.str eventName)]
    (match fmt details with
     | some (Json.obj fs) => fs
     | _ => []))

/-- Evaluation of the value-or-factory `splunkMeta` configuration. -/
def evalSplunkMeta : Option (SplunkMeta ⊕ (Unit → SplunkMeta)) → Option SplunkMeta
  | none => none
  | some (Sum.inl m) => some m
  | some (Sum.inr f) => some (f ())

/-- Method `_buildSplunkMeta` of `Logger.ts`, as the key/value pairs of the
object literal `{time, sourcetype, source, ...meta, fields: {...meta.fields,
kersplunk: version}}`. -/
def _buildSplunkMeta (cfg : CoreLoggerConfiguration) (now : Nat) : List (String × Json) :=
  let meta := evalSplunkMeta cfg.splunkMeta
  let metaFields := match meta with | some m => m.toFields | none => []
  let userFields := match meta with
    | some m => m.fields.getD []
    | none => []
  objMerge
    (objMerge
      [("time", Json.num ((now : ℚ) / 1000)),
       ("sourcetype", Json.str "_json"),
       ("source", Json.str ("kersplunk-" ++ version))]
      metaFields)
    [("fields", Json.obj (objMerge userFields [("kersplunk", Json.str version)]))]

/-- The serialized record appended by `_log`:
`JSON.stringify({...this._buildSplunkMeta(), event: finalEvent})` with the
interceptor applied when set. -/
def serializeEvent (cfg : CoreLoggerConfiguration) (icp : Option (Json → Json))
    (now : Nat) (logType eventName : String) (details : Option Json) : String :=
  let event := buildEvent cfg.errorFormatter logType eventName details
  let finalEvent := match icp with
    | some f => f event
    | none => event
  renderJson (Json.obj (objMerge (_buildSplunkMeta cfg now) [("event", finalEvent)]))

/-- Method `_log` of `Logger.ts`: console mirror, enabled gate, append the
serialized event, rearm the debounce timer, flush at the size threshold. -/
def _log (ok : Nat → Bool) (logType eventName : String) (details : Option Json)
    (s : EngineState) : EngineState :=
  let s0 := if s.config.logToConsole
    then { s with console := s.console ++ [(logType, eventName)] } else s
  if s0.config.enabled = false then s0
  else
    let s1 := { s0 with buffer :=
      s0.buffer ++ [serializeEvent s0.config s0.interceptor s0.now logType eventName details] }
    let s2 := _startOrResetBufferTimeout s1
    if s2.config.maxBuffer ≤ s2.buffer.length then flush ok s2 else s2

/-- Method `enable` of `Logger.ts`. -/
def enable (s : EngineState) : EngineState :=
  { s with config := { s.config with enabled := true } }

/-- Method `disable` of `Logger.ts`. -/
def disable (s : EngineState) : EngineState :=
  { s with config := { s.config with enabled := false } }

/-- The private constructor via `Logger.create`: defaulted configuration,
empty buffer, no pending timer. -/
def create (cfg : LoggerConfiguration) (t0 : Nat) : EngineState :=
  { config := mkCoreConfig cfg
    interceptor := cfg.interceptor
    buffer := []
    bufferTimeout := none
    now := t0
    nextTimerId := 0
    timers := []
    requests := []
    console := [] }

end Logger

/-- Timers whose due time has been reached. -/
def dueTimers (s : EngineState) : List Timer :=
  s.timers.filter (fun t => decide (t.due ≤ s.now))

/-- The earliest entry of a timer list (ties resolved toward the earlier
entry, matching the runtime's registration order). -/
def pickEarliest : List Timer → Option Timer
  | [] => none
  | t :: ts => match pickEarliest ts with
    | none => some t
    | some u => if t.due ≤ u.due then some t else some u

/-- Runtime scheduler step: run the earliest due `setTimeout` callback, if
any.  A fired entry leaves the table before its callback runs; the flush
callback is `() => this.flush()`, the retry callback
`() => this._flushBodyWithRetry(body)`. -/
def fireNext (ok : Nat → Bool) (s : EngineState) : EngineState :=
  match pickEarliest (dueTimers s) with
  | none => s
  | some t =>
    let s1 := { s with timers := clearTimeoutTable t.id s.timers }
    match t.kind with
    | TimerKind.flushT => Logger.flush ok s1
    | TimerKind.retryT body => Logger._flushBodyWithRetry ok body s1

/-- External stimuli of one engine instance: producer calls, clock
advance, scheduler firing, and the configuration toggles. -/
inductive EngineAction where
  | record : String → String → Option Json → EngineAction
  | flushCall : EngineAction
  | advance : Nat → EngineAction
  | fire : EngineAction
  | enableA : EngineAction
  | disableA : EngineAction
  | setAutoRetry : Bool → EngineAction

/-- One engine transition per stimulus. -/
def stepA (ok : Nat → Bool) (a : EngineAction) (s : EngineState) : EngineState :=
  match a with
  | EngineAction.record lt en d => Logger._log ok lt en d s
  | EngineAction.flushCall => Logger.flush ok s
  | EngineAction.advance d => { s with now := s.now + d }
  | EngineAction.fire => fireNext ok s
  | EngineAction.enableA => Logger.enable s
  | EngineAction.disableA => Logger.disable s
  | EngineAction.setAutoRetry b => { s with config := { s.config with autoRetry := b } }

/-- Runs a list of stimuli from a state. -/
def runA (ok : Nat → Bool) (acts : List EngineAction) (s : EngineState) : EngineState :=
  acts.foldl (fun st a => stepA ok a st) s

/-- The `record` stimuli for a list of (logType, eventName, details) triples. -/
def recordActions (evs : List (String × String × Option Json)) : List EngineAction :=
  evs.map (fun e => EngineAction.record e.1 e.2.1 e.2.2)

/-- Groups a list into consecutive chunks of `M` elements (last chunk may be
shorter).  Reference shape for the batches the size threshold produces. -/
def chunksOf (M : Nat) (l : List String) : List (List String) :=
  if _hstop : l = [] ∨ M = 0 then []
  else l.take M :: chunksOf M (l.drop M)
termination_by l.length
decreasing_by
  simp only [List.length_drop]
  rcases Nat.eq_zero_or_pos M with hM | hM
  · exact absurd (Or.inr hM) _hstop
  · have hl : l ≠ [] := fun hc => _hstop (Or.inl hc)
    have : 0 < l.length := List.length_pos.mpr hl
    omega

/-- One step of the buffer/batch bookkeeping of `_log` projected onto
(batch bodies emitted, current buffer): append, and emit a newline-joined
batch once the buffer length reaches `M`. -/
def pushSpec (M : Nat) (acc : List String × List String) (x : String) :
    List String × List String :=
  let buf := acc.2 ++ [x]
  if M ≤ buf.length then (acc.1 ++ [String.intercalate "\n" buf], []) else (acc.1, buf)

/-- Folds `pushSpec` over a list of serialized records. -/
def runSpec (M : Nat) (xs : List String) (acc : List String × List String) :
    List String × List String :=
  xs.foldl (pushSpec M) acc

/-- Recognizes a pending automatic-flush timer (as opposed to a retry timer). -/
def isFlushTimer (t : Timer) : Bool :=
  match t.kind with
  | TimerKind.flushT => true
  | TimerKind.retryT _ => false

/-- How many automatic-flush timers the runtime currently holds. -/
def flushTimerCount (s : EngineState) : Nat :=
  (s.timers.filter isFlushTimer).length

/-- The absolute due time of the pending automatic-flush timer, when the
stored handle refers to a live table entry. -/
def flushDeadline (s : EngineState) : Option Nat :=
  s.bufferTimeout.bind (fun id => (s.timers.find? (fun t => t.id == id)).map (fun t => t.due))

/-- The bookkeeping the runtime maintains for an engine instance: timer
handles are below the fresh-id counter and pairwise distinct, and every
live automatic-flush timer is the one whose handle `_bufferTimeout` stores. -/
def TimerInv (s : EngineState) : Prop :=
  (∀ t ∈ s.timers, t.id < s.nextTimerId) ∧
  (s.timers.map (fun t => t.id)).Nodup ∧
  (∀ t ∈ s.timers, isFlushTimer t = true → s.bufferTimeout = some t.id)

/-- Whether an `Except` result is a normal return. -/
def exceptOk {α : Type} (e : Except String α) : Bool :=
  match e with
  | Except.ok _ => true
  | Except.error _ => false

namespace Logger

/-- Method `_log` of `Logger.ts` with the host-language fallibility of the
user-supplied callbacks made explicit: in JavaScript the configured
`errorFormatter` and `interceptor` are arbitrary functions and may throw,
in which case `_log` — called synchronously by the attached `record`
methods — propagates the exception to the caller (there is no try/catch
around them in the source).  A throw is `Except.error`; the control flow
otherwise mirrors `_log` line by line. -/
def logE (fmt : Option Json → Except String (Option Json))
    (icp : Option (Json → Except String Json)) (ok : Nat → Bool)
    (logType eventName : String) (details : Option Json)
    (s : EngineState) : Except String EngineState :=
  let s0 := if s.config.logToConsole
    then { s with console := s.console ++ [(logType, eventName)] } else s
  if s0.config.enabled = false then Except.ok s0
  else
    (fmt details).bind (fun fr =>
      let event := Json.obj
        (objMerge [("logType", Json.str logType), ("eventName", Json.str eventName)]
          (match fr with
           | some (Json.obj fs) => fs
           | _ => []))
      (match icp with
       | some f => f event
       | none => Except.ok event).bind (fun finalEvent =>
        let s1 := { s0 with buffer := s0.buffer ++
          [renderJson (Json.obj (objMerge (_buildSplunkMeta s0.config s0.now)
            [("event", finalEvent)]))] }
        let s2 := _startOrResetBufferTimeout s1
        Except.ok (if s2.config.maxBuffer ≤ s2.buffer.length then flush ok s2 else s2)))

end Logger

/-- The explicitly configured `splunkMeta.time`, when one is present. -/
def explicitMetaTime (cfg : CoreLoggerConfiguration) : Option ℚ :=
  match Logger.evalSplunkMeta cfg.splunkMeta with
  | some m => m.time
  | none => none

/-- Oracle under which every fetch succeeds. -/
def okAll : Nat → Bool := fun _ => true

/-- Oracle under which every fetch fails. -/
def okNone : Nat → Bool := fun _ => false

/-- A concrete configuration: only the mandatory keys supplied. -/
def cfgBase : LoggerConfiguration :=
  { splunkUrl := "http://my-splunk"
    authToken := "TOK"
    splunkMeta := none
    interceptor := none
    maxBuffer := none
    throttleDuration := none
    autoRetry := none
    autoRetryDuration := none
    enabled := none
    logToConsole := none
    errorFormatter := none }

/-- The spec's example configuration `{maxBuffer: 3, throttleDuration: 2000}`. -/
def cfgEx : LoggerConfiguration :=
  { cfgBase with maxBuffer := some 3, throttleDuration := some 2000 }

/-- Six example record calls. -/
def evsSix : List (String × String × Option Json) :=
  [("info", "one", none), ("info", "two", none), ("info", "three", none),
   ("info", "four", none), ("info", "five", none), ("info", "six", none)]

/-- The request record `fetch` logs for a body sent from state `s`. -/
def mkRequest (s : EngineState) (body : String) : SplunkRequest :=
  ⟨s.config.splunkUrl, "Splunk " ++ s.config.authToken, body, s.now⟩

/-- The console-mirror prefix of `_log` in isolation. -/
def consoleStep (lt en : String) (s : EngineState) : EngineState :=
  if s.config.logToConsole then { s with console := s.console ++ [(lt, en)] } else s

/-! ## Helper lemmas about the individual methods -/

theorem clearBT_buffer (s : EngineState) :
    (Logger._clearBufferTimeout s).buffer = s.buffer := by
  cases hb : s.bufferTimeout <;> simp [Logger._clearBufferTimeout, hb]

theorem clearBT_requests (s : EngineState) :
    (Logger._clearBufferTimeout s).requests = s.requests := by
  cases hb : s.bufferTimeout <;> simp [Logger._clearBufferTimeout, hb]

theorem clearBT_config (s : EngineState) :
    (Logger._clearBufferTimeout s).config = s.config := by
  cases hb : s.bufferTimeout <;> simp [Logger._clearBufferTimeout, hb]

theorem clearBT_now (s : EngineState) :
    (Logger._clearBufferTimeout s).now = s.now := by
  cases hb : s.bufferTimeout <;> simp [Logger._clearBufferTimeout, hb]

theorem clearBT_interceptor (s : EngineState) :
    (Logger._clearBufferTimeout s).interceptor = s.interceptor := by
  cases hb : s.bufferTimeout <;> simp [Logger._clearBufferTimeout, hb]

theorem clearBT_nextTimerId (s : EngineState) :
    (Logger._clearBufferTimeout s).nextTimerId = s.nextTimerId := by
  cases hb : s.bufferTimeout <;> simp [Logger._clearBufferTimeout, hb]

theorem clearBT_console (s : EngineState) :
    (Logger._clearBufferTimeout s).console = s.console := by
  cases hb : s.bufferTimeout <;> simp [Logger._clearBufferTimeout, hb]

theorem clearBT_bufferTimeout (s : EngineState) :
    (Logger._clearBufferTimeout s).bufferTimeout = none := by
  cases hb : s.bufferTimeout <;> simp [Logger._clearBufferTimeout, hb]

theorem startBT_buffer (s : EngineState) :
    (Logger._startOrResetBufferTimeout s).buffer = s.buffer := by
  cases hb : s.bufferTimeout <;>
    simp [Logger._startOrResetBufferTimeout, setTimeoutE, hb]

theorem startBT_requests (s : EngineState) :
    (Logger._startOrResetBufferTimeout s).requests = s.requests := by
  cases hb : s.bufferTimeout <;>
    simp [Logger._startOrResetBufferTimeout, setTimeoutE, hb]

theorem startBT_config (s : EngineState) :
    (Logger._startOrResetBufferTimeout s).config = s.config := by
  cases hb : s.bufferTimeout <;>
    simp [Logger._startOrResetBufferTimeout, setTimeoutE, hb]

theorem startBT_now (s : EngineState) :
    (Logger._startOrResetBufferTimeout s).now = s.now := by
  cases hb : s.bufferTimeout <;>
    simp [Logger._startOrResetBufferTimeout, setTimeoutE, hb]

theorem startBT_interceptor (s : EngineState) :
    (Logger._startOrResetBufferTimeout s).interceptor = s.interceptor := by
  cases hb : s.bufferTimeout <;>
    simp [Logger._startOrResetBufferTimeout, setTimeoutE, hb]

theorem startBT_console (s : EngineState) :
    (Logger._startOrResetBufferTimeout s).console = s.console := by
  cases hb : s.bufferTimeout <;>
    simp [Logger._startOrResetBufferTimeout, setTimeoutE, hb]

theorem startBT_bufferTimeout (s : EngineState) :
    (Logger._startOrResetBufferTimeout s).bufferTimeout = some s.nextTimerId := by
  cases hb : s.bufferTimeout <;>
    simp [Logger._startOrResetBufferTimeout, setTimeoutE, hb]

theorem startBT_nextTimerId (s : EngineState) :
    (Logger._startOrResetBufferTimeout s).nextTimerId = s.nextTimerId + 1 := by
  cases hb : s.bufferTimeout <;>
    simp [Logger._startOrResetBufferTimeout, setTimeoutE, hb]

theorem startBT_timers (s : EngineState) :
    (Logger._startOrResetBufferTimeout s).timers =
      (match s.bufferTimeout with
       | none => s.timers
       | some id => clearTimeoutTable id s.timers)
      ++ [⟨s.nextTimerId, s.now + s.config.throttleDuration, TimerKind.flushT⟩] := by
  cases hb : s.bufferTimeout <;>
    simp [Logger._startOrResetBufferTimeout, setTimeoutE, hb]

theorem fbr_success (ok : Nat → Bool) (body : String) (s : EngineState)
    (h : ok s.requests.length = true) :
    Logger._flushBodyWithRetry ok body s =
      { s with requests := s.requests ++ [mkRequest s body] } := by
  simp [Logger._flushBodyWithRetry, Logger.fetchStep, mkRequest, h]

theorem fbr_fail_retry (ok : Nat → Bool) (body : String) (s : EngineState)
    (h : ok s.requests.length = false) (hr : s.config.autoRetry = true) :
    Logger._flushBodyWithRetry ok body s =
      { s with requests := s.requests ++ [mkRequest s body],
               timers := s.timers ++
                 [⟨s.nextTimerId, s.now + s.config.autoRetryDuration, TimerKind.retryT body⟩],
               nextTimerId := s.nextTimerId + 1 } := by
  simp [Logger._flushBodyWithRetry, Logger.fetchStep, setTimeoutE, mkRequest, h, hr]

theorem fbr_fail_noretry (ok : Nat → Bool) (body : String) (s : EngineState)
    (h : ok s.requests.length = false) (hr : s.config.autoRetry = false) :
    Logger._flushBodyWithRetry ok body s =
      { s with requests := s.requests ++ [mkRequest s body] } := by
  simp [Logger._flushBodyWithRetry, Logger.fetchStep, mkRequest, h, hr]

theorem fbr_requests (ok : Nat → Bool) (body : String) (s : EngineState) :
    (Logger._flushBodyWithRetry ok body s).requests = s.requests ++ [mkRequest s body] := by
  cases h : ok s.requests.length
  · cases hr : s.config.autoRetry
    · rw [fbr_fail_noretry ok body s h hr]
    · rw [fbr_fail_retry ok body s h hr]
  · rw [fbr_success ok body s h]

theorem fbr_buffer (ok : Nat → Bool) (body : String) (s : EngineState) :
    (Logger._flushBodyWithRetry ok body s).buffer = s.buffer := by
  cases h : ok s.requests.length
  · cases hr : s.config.autoRetry
    · rw [fbr_fail_noretry ok body s h hr]
    · rw [fbr_fail_retry ok body s h hr]
  · rw [fbr_success ok body s h]

theorem fbr_config (ok : Nat → Bool) (body : String) (s : EngineState) :
    (Logger._flushBodyWithRetry ok body s).config = s.config := by
  cases h : ok s.requests.length
  · cases hr : s.config.autoRetry
    · rw [fbr_fail_noretry ok body s h hr]
    · rw [fbr_fail_retry ok body s h hr]
  · rw [fbr_success ok body s h]

theorem fbr_now (ok : Nat → Bool) (body : String) (s : EngineState) :
    (Logger._flushBodyWithRetry ok body s).now = s.now := by
  cases h : ok s.requests.length
  · cases hr : s.config.autoRetry
    · rw [fbr_fail_noretry ok body s h hr]
    · rw [fbr_fail_retry ok body s h hr]
  · rw [fbr_success ok body s h]

theorem fbr_interceptor (ok : Nat → Bool) (body : String) (s : EngineState) :
    (Logger._flushBodyWithRetry ok body s).interceptor = s.interceptor := by
  cases h : ok s.requests.length
  · cases hr : s.config.autoRetry
    · rw [fbr_fail_noretry ok body s h hr]
    · rw [fbr_fail_retry ok body s h hr]
  · rw [fbr_success ok body s h]

theorem fbr_bufferTimeout (ok : Nat → Bool) (body : String) (s : EngineState) :
    (Logger._flushBodyWithRetry ok body s).bufferTimeout = s.bufferTimeout := by
  cases h : ok s.requests.length
  · cases hr : s.config.autoRetry
    · rw [fbr_fail_noretry ok body s h hr]
    · rw [fbr_fail_retry ok body s h hr]
  · rw [fbr_success ok body s h]

theorem fbr_console (ok : Nat → Bool) (body : String) (s : EngineState) :
    (Logger._flushBodyWithRetry ok body s).console = s.console := by
  cases h : ok s.requests.length
  · cases hr : s.config.autoRetry
    · rw [fbr_fail_noretry ok body s h hr]
    · rw [fbr_fail_retry ok body s h hr]
  · rw [fbr_success ok body s h]

theorem flush_empty (ok : Nat → Bool) (s : EngineState) (h : s.buffer = []) :
    Logger.flush ok s = Logger._clearBufferTimeout s := by
  simp [Logger.flush, clearBT_buffer, h]

theorem flush_nonempty (ok : Nat → Bool) (s : EngineState) (h : s.buffer ≠ []) :
    Logger.flush ok s =
      Logger._flushBodyWithRetry ok (String.intercalate "\n" s.buffer)
        { Logger._clearBufferTimeout s with buffer := [] } := by
  simp [Logger.flush, clearBT_buffer, h]

theorem flush_buffer (ok : Nat → Bool) (s : EngineState) :
    (Logger.flush ok s).buffer = [] := by
  by_cases h : s.buffer = []
  · rw [flush_empty ok s h, clearBT_buffer, h]
  · rw [flush_nonempty ok s h, fbr_buffer]

theorem flush_requests_nonempty (ok : Nat → Bool) (s : EngineState) (h : s.buffer ≠ []) :
    (Logger.flush ok s).requests =
      s.requests ++ [⟨s.config.splunkUrl, "Splunk " ++ s.config.authToken,
        String.intercalate "\n" s.buffer, s.now⟩] := by
  rw [flush_nonempty ok s h, fbr_requests]
  simp [mkRequest, clearBT_requests, clearBT_config, clearBT_now]

theorem flush_requests_empty (ok : Nat → Bool) (s : EngineState) (h : s.buffer = []) :
    (Logger.flush ok s).requests = s.requests := by
  rw [flush_empty ok s h, clearBT_requests]

theorem flush_config (ok : Nat → Bool) (s : EngineState) :
    (Logger.flush ok s).config = s.config := by
  by_cases h : s.buffer = []
  · rw [flush_empty ok s h, clearBT_config]
  · rw [flush_nonempty ok s h, fbr_config, clearBT_config]

theorem flush_now (ok : Nat → Bool) (s : EngineState) :
    (Logger.flush ok s).now = s.now := by
  by_cases h : s.buffer = []
  · rw [flush_empty ok s h, clearBT_now]
  · rw [flush_nonempty ok s h, fbr_now, clearBT_now]

theorem flush_interceptor (ok : Nat → Bool) (s : EngineState) :
    (Logger.flush ok s).interceptor = s.interceptor := by
  by_cases h : s.buffer = []
  · rw [flush_empty ok s h, clearBT_interceptor]
  · rw [flush_nonempty ok s h, fbr_interceptor, clearBT_interceptor]

theorem flush_console (ok : Nat → Bool) (s : EngineState) :
    (Logger.flush ok s).console = s.console := by
  by_cases h : s.buffer = []
  · rw [flush_empty ok s h, clearBT_console]
  · rw [flush_nonempty ok s h, fbr_console, clearBT_console]

theorem consoleStep_buffer (lt en : String) (s : EngineState) :
    (consoleStep lt en s).buffer = s.buffer := by
  unfold consoleStep; split <;> rfl

theorem consoleStep_requests (lt en : String) (s : EngineState) :
    (consoleStep lt en s).requests = s.requests := by
  unfold consoleStep; split <;> rfl

theorem consoleStep_config (lt en : String) (s : EngineState) :
    (consoleStep lt en s).config = s.config := by
  unfold consoleStep; split <;> rfl

theorem consoleStep_now (lt en : String) (s : EngineState) :
    (consoleStep lt en s).now = s.now := by
  unfold consoleStep; split <;> rfl

theorem consoleStep_interceptor (lt en : String) (s : EngineState) :
    (consoleStep lt en s).interceptor = s.interceptor := by
  unfold consoleStep; split <;> rfl

theorem consoleStep_bufferTimeout (lt en : String) (s : EngineState) :
    (consoleStep lt en s).bufferTimeout = s.bufferTimeout := by
  unfold consoleStep; split <;> rfl

theorem consoleStep_nextTimerId (lt en : String) (s : EngineState) :
    (consoleStep lt en s).nextTimerId = s.nextTimerId := by
  unfold consoleStep; split <;> rfl

theorem consoleStep_timers (lt en : String) (s : EngineState) :
    (consoleStep lt en s).timers = s.timers := by
  unfold consoleStep; split <;> rfl

theorem log_unfold (ok : Nat → Bool) (lt en : String) (d : Option Json) (s : EngineState)
    (hen : s.config.enabled = true) :
    Logger._log ok lt en d s =
      (let s2 := Logger._startOrResetBufferTimeout
         { consoleStep lt en s with buffer := s.buffer ++
            [Logger.serializeEvent s.config s.interceptor s.now lt en d] }
       if s.config.maxBuffer ≤ s.buffer.length + 1 then Logger.flush ok s2 else s2) := by
  unfold Logger._log consoleStep
  cases hc : s.config.logToConsole <;>
    simp only [hc, hen, Bool.false_eq_true, if_false, if_true, Bool.true_eq_false] <;>
    by_cases hlen : s.config.maxBuffer ≤ s.buffer.length + 1 <;>
    simp [startBT_buffer, startBT_config, hlen, List.length_append]

theorem log_disabled (ok : Nat → Bool) (lt en : String) (d : Option Json) (s : EngineState)
    (hen : s.config.enabled = false) :
    Logger._log ok lt en d s = consoleStep lt en s := by
  unfold Logger._log consoleStep
  cases hc : s.config.logToConsole <;> simp [hc, hen]

theorem log_below_state (ok : Nat → Bool) (lt en : String) (d : Option Json) (s : EngineState)
    (hen : s.config.enabled = true) (hlen : ¬ (s.config.maxBuffer ≤ s.buffer.length + 1)) :
    Logger._log ok lt en d s =
      Logger._startOrResetBufferTimeout { consoleStep lt en s with buffer := s.buffer ++
        [Logger.serializeEvent s.config s.interceptor s.now lt en d] } := by
  rw [log_unfold ok lt en d s hen]
  exact if_neg hlen

theorem log_at_state (ok : Nat → Bool) (lt en : String) (d : Option Json) (s : EngineState)
    (hen : s.config.enabled = true) (hlen : s.config.maxBuffer ≤ s.buffer.length + 1) :
    Logger._log ok lt en d s =
      Logger.flush ok (Logger._startOrResetBufferTimeout
        { consoleStep lt en s with buffer := s.buffer ++
          [Logger.serializeEvent s.config s.interceptor s.now lt en d] }) := by
  rw [log_unfold ok lt en d s hen]
  exact if_pos hlen

theorem log_below_buffer (ok : Nat → Bool) (lt en : String) (d : Option Json) (s : EngineState)
    (hen : s.config.enabled = true) (hlen : ¬ (s.config.maxBuffer ≤ s.buffer.length + 1)) :
    (Logger._log ok lt en d s).buffer =
      s.buffer ++ [Logger.serializeEvent s.config s.interceptor s.now lt en d] := by
  rw [log_below_state ok lt en d s hen hlen, startBT_buffer]

theorem log_below_requests (ok : Nat → Bool) (lt en : String) (d : Option Json) (s : EngineState)
    (hen : s.config.enabled = true) (hlen : ¬ (s.config.maxBuffer ≤ s.buffer.length + 1)) :
    (Logger._log ok lt en d s).requests = s.requests := by
  rw [log_below_state ok lt en d s hen hlen, startBT_requests]
  exact consoleStep_requests lt en s

theorem log_below_bufferTimeout (ok : Nat → Bool) (lt en : String) (d : Option Json)
    (s : EngineState) (hen : s.config.enabled = true)
    (hlen : ¬ (s.config.maxBuffer ≤ s.buffer.length + 1)) :
    (Logger._log ok lt en d s).bufferTimeout = some s.nextTimerId := by
  rw [log_below_state ok lt en d s hen hlen, startBT_bufferTimeout]
  rw [show ({ consoleStep lt en s with buffer := s.buffer ++
    [Logger.serializeEvent s.config s.interceptor s.now lt en d] } : EngineState).nextTimerId
    = (consoleStep lt en s).nextTimerId from rfl, consoleStep_nextTimerId]

theorem log_below_timers (ok : Nat → Bool) (lt en : String) (d : Option Json) (s : EngineState)
    (hen : s.config.enabled = true) (hlen : ¬ (s.config.maxBuffer ≤ s.buffer.length + 1)) :
    (Logger._log ok lt en d s).timers =
      (match s.bufferTimeout with
       | none => s.timers
       | some id => clearTimeoutTable id s.timers)
      ++ [⟨s.nextTimerId, s.now + s.config.throttleDuration, TimerKind.flushT⟩] := by
  rw [log_below_state ok lt en d s hen hlen, startBT_timers]
  simp [consoleStep_timers, consoleStep_bufferTimeout, consoleStep_nextTimerId,
    consoleStep_now, consoleStep_config]

theorem log_at_buffer (ok : Nat → Bool) (lt en : String) (d : Option Json) (s : EngineState)
    (hen : s.config.enabled = true) (hlen : s.config.maxBuffer ≤ s.buffer.length + 1) :
    (Logger._log ok lt en d s).buffer = [] := by
  rw [log_at_state ok lt en d s hen hlen, flush_buffer]

theorem log_at_requests (ok : Nat → Bool) (lt en : String) (d : Option Json) (s : EngineState)
    (hen : s.config.enabled = true) (hlen : s.config.maxBuffer ≤ s.buffer.length + 1) :
    (Logger._log ok lt en d s).requests =
      s.requests ++ [⟨s.config.splunkUrl, "Splunk " ++ s.config.authToken,
        String.intercalate "\n"
          (s.buffer ++ [Logger.serializeEvent s.config s.interceptor s.now lt en d]),
        s.now⟩] := by
  rw [log_at_state ok lt en d s hen hlen]
  rw [flush_requests_nonempty]
  · simp [startBT_requests, startBT_buffer, startBT_config, startBT_now,
      consoleStep_requests, consoleStep_buffer, consoleStep_config, consoleStep_now]
  · rw [startBT_buffer]
    simp

theorem log_config (ok : Nat → Bool) (lt en : String) (d : Option Json) (s : EngineState) :
    (Logger._log ok lt en d s).config = s.config := by
  cases hen : s.config.enabled
  · rw [log_disabled ok lt en d s hen, consoleStep_config]
  · by_cases hlen : s.config.maxBuffer ≤ s.buffer.length + 1
    · rw [log_at_state ok lt en d s hen hlen, flush_config, startBT_config, consoleStep_config]
    · rw [log_below_state ok lt en d s hen hlen, startBT_config, consoleStep_config]

theorem log_now (ok : Nat → Bool) (lt en : String) (d : Option Json) (s : EngineState) :
    (Logger._log ok lt en d s).now = s.now := by
  cases hen : s.config.enabled
  · rw [log_disabled ok lt en d s hen, consoleStep_now]
  · by_cases hlen : s.config.maxBuffer ≤ s.buffer.length + 1
    · rw [log_at_state ok lt en d s hen hlen, flush_now, startBT_now, consoleStep_now]
    · rw [log_below_state ok lt en d s hen hlen, startBT_now, consoleStep_now]

theorem log_interceptor (ok : Nat → Bool) (lt en : String) (d : Option Json) (s : EngineState) :
    (Logger._log ok lt en d s).interceptor = s.interceptor := by
  cases hen : s.config.enabled
  · rw [log_disabled ok lt en d s hen, consoleStep_interceptor]
  · by_cases hlen : s.config.maxBuffer ≤ s.buffer.length + 1
    · rw [log_at_state ok lt en d s hen hlen, flush_interceptor, startBT_interceptor,
        consoleStep_interceptor]
    · rw [log_below_state ok lt en d s hen hlen, startBT_interceptor, consoleStep_interceptor]

theorem runSpec_nil (M : Nat) (acc : List String × List String) :
    runSpec M [] acc = acc := rfl

theorem runSpec_cons (M : Nat) (x : String) (xs : List String)
    (acc : List String × List String) :
    runSpec M (x :: xs) acc = runSpec M xs (pushSpec M acc x) := rfl

theorem pushSpec_emit (M : Nat) (as b : List String) (x : String)
    (h : M ≤ b.length + 1) :
    pushSpec M (as, b) x = (as ++ [String.intercalate "\n" (b ++ [x])], []) := by
  simp [pushSpec, List.length_append, h]

theorem pushSpec_grow (M : Nat) (as b : List String) (x : String)
    (h : ¬ M ≤ b.length + 1) :
    pushSpec M (as, b) x = (as, b ++ [x]) := by
  simp [pushSpec, List.length_append, h]

theorem runSpec_acc (M : Nat) (xs : List String) (as b : List String) :
    runSpec M xs (as, b) =
      (as ++ (runSpec M xs ([], b)).1, (runSpec M xs ([], b)).2) := by
  induction xs generalizing as b with
  | nil => simp [runSpec_nil]
  | cons x rest ih =>
    by_cases h : M ≤ b.length + 1
    · rw [runSpec_cons, runSpec_cons, pushSpec_emit M as b x h, pushSpec_emit M [] b x h]
      rw [ih (as ++ [String.intercalate "\n" (b ++ [x])]) [],
        ih ([] ++ [String.intercalate "\n" (b ++ [x])]) []]
      simp
    · rw [runSpec_cons, runSpec_cons, pushSpec_grow M as b x h, pushSpec_grow M [] b x h]
      exact ih as (b ++ [x])

theorem chunksOf_cons (M : Nat) (hM : 0 < M) (c rest : List String) (hc : c.length = M) :
    chunksOf M (c ++ rest) = c :: chunksOf M rest := by
  have hne : c ++ rest ≠ [] := by
    intro hcontra
    have : c = [] := by
      cases c with
      | nil => rfl
      | cons y ys => simp at hcontra
    rw [this] at hc
    simp at hc
    omega
  rw [chunksOf]
  rw [dif_neg (by push_neg; exact ⟨hne, by omega⟩)]
  rw [List.take_left' hc, List.drop_left' hc]

theorem runSpec_chunks (M : Nat) (hM : 0 < M) (xs : List String) (b : List String)
    (hb : b.length < M) :
    runSpec M xs ([], b)
      = (((chunksOf M (b ++ xs)).take ((b.length + xs.length) / M)).map
           (String.intercalate "\n"),
         (b ++ xs).drop (M * ((b.length + xs.length) / M))) := by
  induction xs generalizing b with
  | nil =>
    simp only [runSpec_nil, List.length_nil, List.append_nil, Nat.add_zero]
    rw [Nat.div_eq_of_lt hb]
    simp
  | cons x rest ih =>
    rw [runSpec_cons]
    by_cases h : M ≤ b.length + 1
    · have hcM : (b ++ [x]).length = M := by
        simp only [List.length_append, List.length_cons, List.length_nil]
        omega
      have hdiv : b.length + (x :: rest).length = rest.length + M := by
        simp only [List.length_cons]
        omega
      rw [pushSpec_emit M [] b x h, runSpec_acc,
        ih [] (by simp only [List.length_nil]; omega)]
      have hsplit : b ++ x :: rest = (b ++ [x]) ++ rest := by
        simp [List.append_assoc]
      rw [hsplit, hdiv, Nat.add_div_right _ hM, chunksOf_cons M hM (b ++ [x]) rest hcM]
      have hdrop : ((b ++ [x]) ++ rest).drop (M * (rest.length / M + 1))
          = rest.drop (M * (rest.length / M)) := by
        have hidx : M * (rest.length / M + 1) = M + M * (rest.length / M) := by
          rw [Nat.mul_add, Nat.mul_one]; omega
        rw [hidx, ← List.drop_drop, List.drop_left' hcM]
      rw [hdrop]
      simp [List.take_succ_cons]
    · have hb' : (b ++ [x]).length < M := by
        simp only [List.length_append, List.length_cons, List.length_nil]
        omega
      rw [pushSpec_grow M [] b x h, ih (b ++ [x]) hb']
      have hsplit : (b ++ [x]) ++ rest = b ++ x :: rest := by
        simp [List.append_assoc]
      have hlen : (b ++ [x]).length + rest.length = b.length + (x :: rest).length := by
        simp only [List.length_append, List.length_cons, List.length_nil]
        omega
      rw [hsplit, hlen]

theorem runRecords_refines (ok : Nat → Bool) (evs : List (String × String × Option Json))
    (s : EngineState) (hen : s.config.enabled = true) :
    ((runA ok (recordActions evs) s).requests.map (fun r => r.body)
        = (runSpec s.config.maxBuffer
            (evs.map (fun e =>
              Logger.serializeEvent s.config s.interceptor s.now e.1 e.2.1 e.2.2))
            (s.requests.map (fun r => r.body), s.buffer)).1)
    ∧ ((runA ok (recordActions evs) s).buffer
        = (runSpec s.config.maxBuffer
            (evs.map (fun e =>
              Logger.serializeEvent s.config s.interceptor s.now e.1 e.2.1 e.2.2))
            (s.requests.map (fun r => r.body), s.buffer)).2) := by
  induction evs generalizing s with
  | nil => exact ⟨rfl, rfl⟩
  | cons e rest ih =>
    have hstep : runA ok (recordActions (e :: rest)) s
        = runA ok (recordActions rest) (Logger._log ok e.1 e.2.1 e.2.2 s) := rfl
    have hcfg : (Logger._log ok e.1 e.2.1 e.2.2 s).config = s.config :=
      log_config ok e.1 e.2.1 e.2.2 s
    have hnow : (Logger._log ok e.1 e.2.1 e.2.2 s).now = s.now :=
      log_now ok e.1 e.2.1 e.2.2 s
    have hicp : (Logger._log ok e.1 e.2.1 e.2.2 s).interceptor = s.interceptor :=
      log_interceptor ok e.1 e.2.1 e.2.2 s
    have hen' : (Logger._log ok e.1 e.2.1 e.2.2 s).config.enabled = true := by
      rw [hcfg]; exact hen
    have hmain := ih (Logger._log ok e.1 e.2.1 e.2.2 s) hen'
    rw [hcfg, hnow, hicp] at hmain
    by_cases hlen : s.config.maxBuffer ≤ s.buffer.length + 1
    · have hbuf : (Logger._log ok e.1 e.2.1 e.2.2 s).buffer = [] :=
        log_at_buffer ok e.1 e.2.1 e.2.2 s hen hlen
      have hreqmap : (Logger._log ok e.1 e.2.1 e.2.2 s).requests.map (fun r => r.body)
          = s.requests.map (fun r => r.body) ++
            [String.intercalate "\n" (s.buffer ++
              [Logger.serializeEvent s.config s.interceptor s.now e.1 e.2.1 e.2.2])] := by
        rw [log_at_requests ok e.1 e.2.1 e.2.2 s hen hlen]
        simp
      constructor
      · calc (runA ok (recordActions (e :: rest)) s).requests.map (fun r => r.body)
            = (runSpec s.config.maxBuffer
                (rest.map (fun e =>
                  Logger.serializeEvent s.config s.interceptor s.now e.1 e.2.1 e.2.2))
                ((Logger._log ok e.1 e.2.1 e.2.2 s).requests.map (fun r => r.body),
                 (Logger._log ok e.1 e.2.1 e.2.2 s).buffer)).1 := by
              rw [hstep]; exact hmain.1
        _ = (runSpec s.config.maxBuffer
              ((e :: rest).map (fun e =>
                Logger.serializeEvent s.config s.interceptor s.now e.1 e.2.1 e.2.2))
              (s.requests.map (fun r => r.body), s.buffer)).1 := by
              rw [hreqmap, hbuf, List.map_cons, runSpec_cons,
                pushSpec_emit _ _ _ _ hlen]
      · calc (runA ok (recordActions (e :: rest)) s).buffer
            = (runSpec s.config.maxBuffer
                (rest.map (fun e =>
                  Logger.serializeEvent s.config s.interceptor s.now e.1 e.2.1 e.2.2))
                ((Logger._log ok e.1 e.2.1 e.2.2 s).requests.map (fun r => r.body),
                 (Logger._log ok e.1 e.2.1 e.2.2 s).buffer)).2 := by
              rw [hstep]; exact hmain.2
        _ = (runSpec s.config.maxBuffer
              ((e :: rest).map (fun e =>
                Logger.serializeEvent s.config s.interceptor s.now e.1 e.2.1 e.2.2))
              (s.requests.map (fun r => r.body), s.buffer)).2 := by
              rw [hreqmap, hbuf, List.map_cons, runSpec_cons,
                pushSpec_emit _ _ _ _ hlen]
    · have hbuf : (Logger._log ok e.1 e.2.1 e.2.2 s).buffer
          = s.buffer ++ [Logger.serializeEvent s.config s.interceptor s.now e.1 e.2.1 e.2.2] :=
        log_below_buffer ok e.1 e.2.1 e.2.2 s hen hlen
      have hreqmap : (Logger._log ok e.1 e.2.1 e.2.2 s).requests.map (fun r => r.body)
          = s.requests.map (fun r => r.body) := by
        rw [log_below_requests ok e.1 e.2.1 e.2.2 s hen hlen]
      constructor
      · calc (runA ok (recordActions (e :: rest)) s).requests.map (fun r => r.body)
            = (runSpec s.config.maxBuffer
                (rest.map (fun e =>
                  Logger.serializeEvent s.config s.interceptor s.now e.1 e.2.1 e.2.2))
                ((Logger._log ok e.1 e.2.1 e.2.2 s).requests.map (fun r => r.body),
                 (Logger._log ok e.1 e.2.1 e.2.2 s).buffer)).1 := by
              rw [hstep]; exact hmain.1
        _ = (runSpec s.config.maxBuffer
              ((e :: rest).map (fun e =>
                Logger.serializeEvent s.config s.interceptor s.now e.1 e.2.1 e.2.2))
              (s.requests.map (fun r => r.body), s.buffer)).1 := by
              rw [hreqmap, hbuf, List.map_cons, runSpec_cons,
                pushSpec_grow _ _ _ _ hlen]
      · calc (runA ok (recordActions (e :: rest)) s).buffer
            = (runSpec s.config.maxBuffer
                (rest.map (fun e =>
                  Logger.serializeEvent s.config s.interceptor s.now e.1 e.2.1 e.2.2))
                ((Logger._log ok e.1 e.2.1 e.2.2 s).requests.map (fun r => r.body),
                 (Logger._log ok e.1 e.2.1 e.2.2 s).buffer)).2 := by
              rw [hstep]; exact hmain.2
        _ = (runSpec s.config.maxBuffer
              ((e :: rest).map (fun e =>
                Logger.serializeEvent s.config s.interceptor s.now e.1 e.2.1 e.2.2))
              (s.requests.map (fun r => r.body), s.buffer)).2 := by
              rw [hreqmap, hbuf, List.map_cons, runSpec_cons,
                pushSpec_grow _ _ _ _ hlen]

theorem create_config (cfg : LoggerConfiguration) (t0 : Nat) :
    (Logger.create cfg t0).config = mkCoreConfig cfg := rfl

theorem create_interceptor (cfg : LoggerConfiguration) (t0 : Nat) :
    (Logger.create cfg t0).interceptor = cfg.interceptor := rfl

theorem create_now (cfg : LoggerConfiguration) (t0 : Nat) :
    (Logger.create cfg t0).now = t0 := rfl

/-- C1: for every logger with `maxBuffer = M > 0`, running `N` `record`
calls from a fresh instance produces exactly the `⌊N/M⌋` full batches of
`M` consecutive serialized records, newline-joined in call order, as the
bodies of the submitted requests, and leaves the `N mod M` remaining
records in the buffer (a fresh buffer after each threshold flush).  In
particular the size threshold triggers the flush at the very record that
makes the length reach `M`, and six records with `maxBuffer = 3` give two
batches of three. -/
theorem c1_threshold_batches (ok : Nat → Bool) (cfg : LoggerConfiguration) (t0 : Nat)
    (evs : List (String × String × Option Json))
    (hen : (mkCoreConfig cfg).enabled = true)
    (hM : 0 < (mkCoreConfig cfg).maxBuffer) :
    ((runA ok (recordActions evs) (Logger.create cfg t0)).requests.map (fun r => r.body)
      = ((chunksOf (mkCoreConfig cfg).maxBuffer
            (evs.map (fun e => Logger.serializeEvent (mkCoreConfig cfg) cfg.interceptor t0
              e.1 e.2.1 e.2.2))).take
          (evs.length / (mkCoreConfig cfg).maxBuffer)).map (String.intercalate "\n"))
    ∧ ((runA ok (recordActions evs) (Logger.create cfg t0)).buffer
      = (evs.map (fun e => Logger.serializeEvent (mkCoreConfig cfg) cfg.interceptor t0
          e.1 e.2.1 e.2.2)).drop
          ((mkCoreConfig cfg).maxBuffer * (evs.length / (mkCoreConfig cfg).maxBuffer))) := by
  have h1 := runRecords_refines ok evs (Logger.create cfg t0) hen
  rw [create_config, create_interceptor, create_now] at h1
  have h2 := runSpec_chunks (mkCoreConfig cfg).maxBuffer hM
    (evs.map (fun e => Logger.serializeEvent (mkCoreConfig cfg) cfg.interceptor t0
      e.1 e.2.1 e.2.2)) []
    (by simp only [List.length_nil]; omega)
  simp only [List.nil_append, List.length_nil, Nat.zero_add, List.length_map] at h2
  have hreq0 : (Logger.create cfg t0).requests.map
      (fun r : SplunkRequest => r.body) = [] := rfl
  have hbuf0 : (Logger.create cfg t0).buffer = [] := rfl
  rw [hreq0, hbuf0] at h1
  exact ⟨by rw [h1.1, h2], by rw [h1.2, h2]⟩

theorem c1_threshold_batches_witness :
    (mkCoreConfig cfgEx).enabled = true ∧ 0 < (mkCoreConfig cfgEx).maxBuffer ∧
    (((runA okAll (recordActions evsSix) (Logger.create cfgEx 0)).requests.map
        (fun r => r.body)
      = ((chunksOf (mkCoreConfig cfgEx).maxBuffer
            (evsSix.map (fun e => Logger.serializeEvent (mkCoreConfig cfgEx) cfgEx.interceptor 0
              e.1 e.2.1 e.2.2))).take
          (evsSix.length / (mkCoreConfig cfgEx).maxBuffer)).map (String.intercalate "\n"))
    ∧ ((runA okAll (recordActions evsSix) (Logger.create cfgEx 0)).buffer
      = (evsSix.map (fun e => Logger.serializeEvent (mkCoreConfig cfgEx) cfgEx.interceptor 0
          e.1 e.2.1 e.2.2)).drop
          ((mkCoreConfig cfgEx).maxBuffer * (evsSix.length / (mkCoreConfig cfgEx).maxBuffer)))) :=
  ⟨rfl, Nat.zero_lt_succ 2,
    c1_threshold_batches okAll cfgEx 0 evsSix rfl (Nat.zero_lt_succ 2)⟩

theorem flush_requests_mono (ok : Nat → Bool) (s : EngineState) :
    ∃ tail, (Logger.flush ok s).requests = s.requests ++ tail := by
  by_cases h : s.buffer = []
  · exact ⟨[], by rw [flush_requests_empty ok s h, List.append_nil]⟩
  · exact ⟨_, flush_requests_nonempty ok s h⟩

theorem log_requests_mono (ok : Nat → Bool) (lt en : String) (d : Option Json)
    (s : EngineState) :
    ∃ tail, (Logger._log ok lt en d s).requests = s.requests ++ tail := by
  cases hen : s.config.enabled
  · exact ⟨[], by
      rw [log_disabled ok lt en d s hen, consoleStep_requests, List.append_nil]⟩
  · by_cases hlen : s.config.maxBuffer ≤ s.buffer.length + 1
    · exact ⟨_, log_at_requests ok lt en d s hen hlen⟩
    · exact ⟨[], by
        rw [log_below_requests ok lt en d s hen hlen, List.append_nil]⟩

theorem fireNext_requests_mono (ok : Nat → Bool) (s : EngineState) :
    ∃ tail, (fireNext ok s).requests = s.requests ++ tail := by
  unfold fireNext
  cases hp : pickEarliest (dueTimers s) with
  | none => exact ⟨[], (List.append_nil _).symm⟩
  | some t =>
    cases htk : t.kind with
    | flushT =>
      simp only [htk]
      exact flush_requests_mono ok { s with timers := clearTimeoutTable t.id s.timers }
    | retryT body =>
      simp only [htk]
      exact ⟨_, fbr_requests ok body { s with timers := clearTimeoutTable t.id s.timers }⟩

theorem step_requests_mono (ok : Nat → Bool) (a : EngineAction) (s : EngineState) :
    ∃ tail, (stepA ok a s).requests = s.requests ++ tail := by
  cases a with
  | record lt en d => exact log_requests_mono ok lt en d s
  | flushCall => exact flush_requests_mono ok s
  | advance d => exact ⟨[], (List.append_nil _).symm⟩
  | fire => exact fireNext_requests_mono ok s
  | enableA => exact ⟨[], (List.append_nil _).symm⟩
  | disableA => exact ⟨[], (List.append_nil _).symm⟩
  | setAutoRetry b => exact ⟨[], (List.append_nil _).symm⟩

theorem run_requests_mono (ok : Nat → Bool) (acts : List EngineAction) (s : EngineState) :
    ∃ tail, (runA ok acts s).requests = s.requests ++ tail := by
  induction acts generalizing s with
  | nil => exact ⟨[], (List.append_nil _).symm⟩
  | cons a rest ih =>
    obtain ⟨t1, h1⟩ := step_requests_mono ok a s
    obtain ⟨t2, h2⟩ := ih (stepA ok a s)
    refine ⟨t1 ++ t2, ?_⟩
    rw [show runA ok (a :: rest) s = runA ok rest (stepA ok a s) from rfl, h2, h1,
      List.append_assoc]

/-- C2: flushing a non-empty buffer submits one batch whose body is the
newline-join of the buffered records in append order, and resets the
buffer to the empty sequence (the reset happens before the fetch in the
source, so the submission sees the snapshot); afterwards the request log
only ever grows, so no later stimulus — in particular no record call made
while the submission is outstanding — can alter the batch that was sent,
and later records accumulate in the fresh buffer independently. -/
theorem c2_flush_snapshot (ok : Nat → Bool) (s : EngineState) (h : s.buffer ≠ [])
    (acts : List EngineAction) :
    (Logger.flush ok s).buffer = []
    ∧ (Logger.flush ok s).requests = s.requests ++
        [⟨s.config.splunkUrl, "Splunk " ++ s.config.authToken,
          String.intercalate "\n" s.buffer, s.now⟩]
    ∧ ∃ tail, (runA ok acts (Logger.flush ok s)).requests
        = (Logger.flush ok s).requests ++ tail :=
  ⟨flush_buffer ok s, flush_requests_nonempty ok s h,
    run_requests_mono ok acts (Logger.flush ok s)⟩

theorem c2_flush_snapshot_witness :
    ((Logger._log okAll "info" "one" none (Logger.create cfgEx 0)).buffer ≠ []) ∧
    ((Logger.flush okAll (Logger._log okAll "info" "one" none (Logger.create cfgEx 0))).buffer = []
    ∧ (Logger.flush okAll (Logger._log okAll "info" "one" none (Logger.create cfgEx 0))).requests
        = (Logger._log okAll "info" "one" none (Logger.create cfgEx 0)).requests ++
        [⟨(Logger._log okAll "info" "one" none (Logger.create cfgEx 0)).config.splunkUrl,
          "Splunk " ++ (Logger._log okAll "info" "one" none (Logger.create cfgEx 0)).config.authToken,
          String.intercalate "\n" (Logger._log okAll "info" "one" none (Logger.create cfgEx 0)).buffer,
          (Logger._log okAll "info" "one" none (Logger.create cfgEx 0)).now⟩]
    ∧ ∃ tail, (runA okAll [EngineAction.record "info" "two" none]
          (Logger.flush okAll (Logger._log okAll "info" "one" none (Logger.create cfgEx 0)))).requests
        = (Logger.flush okAll (Logger._log okAll "info" "one" none (Logger.create cfgEx 0))).requests
          ++ tail) :=
  ⟨by decide,
    c2_flush_snapshot okAll (Logger._log okAll "info" "one" none (Logger.create cfgEx 0))
      (by decide) [EngineAction.record "info" "two" none]⟩

/-- C3: each `record` call rearms the automatic-flush timer to fire
`throttleDuration` after that call (debounce): below the size threshold,
after `_log` the pending flush timer's absolute deadline is exactly
`now + throttleDuration`, whatever deadline was pending before.  Concretely,
with `throttleDuration = 2000` and records at t=0 and t=1500, by t=3000 no
request has been made and no timer is due (so the runtime cannot fire a
flush), the pending deadline is 3500, and firing at t=3500 submits the
single batch of both records. -/
theorem c3_debounce_timer :
    (∀ (ok : Nat → Bool) (lt en : String) (d : Option Json) (s : EngineState),
      s.config.enabled = true →
      ¬ (s.config.maxBuffer ≤ s.buffer.length + 1) →
      (∀ t ∈ s.timers, t.id < s.nextTimerId) →
      flushDeadline (Logger._log ok lt en d s) = some (s.now + s.config.throttleDuration))
    ∧ ((runA okAll [EngineAction.record "info" "a" none, EngineAction.advance 1500,
          EngineAction.record "info" "b" none, EngineAction.advance 1500]
          (Logger.create cfgEx 0)).requests = []
      ∧ dueTimers (runA okAll [EngineAction.record "info" "a" none, EngineAction.advance 1500,
          EngineAction.record "info" "b" none, EngineAction.advance 1500]
          (Logger.create cfgEx 0)) = []
      ∧ flushDeadline (runA okAll [EngineAction.record "info" "a" none, EngineAction.advance 1500,
          EngineAction.record "info" "b" none, EngineAction.advance 1500]
          (Logger.create cfgEx 0)) = some 3500
      ∧ (fireNext okAll (stepA okAll (EngineAction.advance 500)
          (runA okAll [EngineAction.record "info" "a" none, EngineAction.advance 1500,
            EngineAction.record "info" "b" none, EngineAction.advance 1500]
            (Logger.create cfgEx 0)))).requests.map (fun r => (r.body, r.sentAt))
        = [(String.intercalate "\n"
            (runA okAll [EngineAction.record "info" "a" none, EngineAction.advance 1500,
              EngineAction.record "info" "b" none, EngineAction.advance 1500]
              (Logger.create cfgEx 0)).buffer, 3500)]) := by
  constructor
  · intro ok lt en d s hen hlen hids
    unfold flushDeadline
    rw [log_below_bufferTimeout ok lt en d s hen hlen,
      log_below_timers ok lt en d s hen hlen]
    simp only [Option.bind]
    rw [List.find?_append, List.find?_eq_none.mpr ?pre]
    · simp [List.find?_cons]
    case pre =>
      intro t ht
      have htm : t ∈ s.timers := by
        cases hb : s.bufferTimeout with
        | none => rw [hb] at ht; exact ht
        | some id =>
          rw [hb] at ht
          exact (List.mem_filter.mp ht).1
      have hlt : t.id < s.nextTimerId := hids t htm
      simp [Nat.ne_of_lt hlt]
  · exact ⟨rfl, rfl, rfl, rfl⟩

theorem c3_debounce_timer_witness :
    ((Logger.create cfgEx 5).config.enabled = true)
    ∧ (¬ ((Logger.create cfgEx 5).config.maxBuffer ≤ (Logger.create cfgEx 5).buffer.length + 1))
    ∧ (∀ t ∈ (Logger.create cfgEx 5).timers, t.id < (Logger.create cfgEx 5).nextTimerId)
    ∧ flushDeadline (Logger._log okAll "info" "w" none (Logger.create cfgEx 5))
        = some ((Logger.create cfgEx 5).now + (Logger.create cfgEx 5).config.throttleDuration) :=
  ⟨rfl, by decide, by intro t ht; exact absurd ht (List.not_mem_nil t),
    c3_debounce_timer.1 okAll "info" "w" none (Logger.create cfgEx 5) rfl (by decide)
      (by intro t ht; exact absurd ht (List.not_mem_nil t))⟩

/-- C4: when a submission fails while `autoRetry` is currently true,
exactly one retry timer is appended, due `autoRetryDuration` after the
failure, holding the byte-identical batch payload; when a submission
succeeds, no timer is scheduled at all (so a successful resubmission ends
the retry sequence and the batch is discarded); and firing a retry timer
re-enters `_flushBodyWithRetry` with the identical payload, at which point
the `autoRetry` flag is read fresh from the current configuration (the
hypotheses of the first two conjuncts are about the state at that moment).
The concrete trace: one record, a failing flush, a retry at t=1000 that
succeeds and schedules nothing further. -/
theorem c4_retry_protocol :
    (∀ (ok : Nat → Bool) (body : String) (s : EngineState),
      ok s.requests.length = false → s.config.autoRetry = true →
      Logger._flushBodyWithRetry ok body s =
        { s with requests := s.requests ++ [mkRequest s body],
                 timers := s.timers ++ [⟨s.nextTimerId,
                   s.now + s.config.autoRetryDuration, TimerKind.retryT body⟩],
                 nextTimerId := s.nextTimerId + 1 })
    ∧ (∀ (ok : Nat → Bool) (body : String) (s : EngineState),
      ok s.requests.length = true →
      Logger._flushBodyWithRetry ok body s =
        { s with requests := s.requests ++ [mkRequest s body] })
    ∧ (∀ (ok : Nat → Bool) (s : EngineState) (t : Timer) (body : String),
      pickEarliest (dueTimers s) = some t → t.kind = TimerKind.retryT body →
      fireNext ok s = Logger._flushBodyWithRetry ok body
        { s with timers := clearTimeoutTable t.id s.timers })
    ∧ ((Logger.flush (fun n => n != 0)
          (Logger._log (fun n => n != 0) "info" "x" none
            (Logger.create cfgEx 0))).timers.map (fun t => (t.due, t.kind))
        = [(1000, TimerKind.retryT (String.intercalate "\n"
            (Logger._log (fun n => n != 0) "info" "x" none
              (Logger.create cfgEx 0)).buffer))]
      ∧ (fireNext (fun n => n != 0) (stepA (fun n => n != 0) (EngineAction.advance 1000)
          (Logger.flush (fun n => n != 0)
            (Logger._log (fun n => n != 0) "info" "x" none
              (Logger.create cfgEx 0))))).requests.map (fun r => (r.body, r.sentAt))
        = [(String.intercalate "\n"
            (Logger._log (fun n => n != 0) "info" "x" none
              (Logger.create cfgEx 0)).buffer, 0),
           (String.intercalate "\n"
            (Logger._log (fun n => n != 0) "info" "x" none
              (Logger.create cfgEx 0)).buffer, 1000)]
      ∧ (fireNext (fun n => n != 0) (stepA (fun n => n != 0) (EngineAction.advance 1000)
          (Logger.flush (fun n => n != 0)
            (Logger._log (fun n => n != 0) "info" "x" none
              (Logger.create cfgEx 0))))).timers = []) := by
  refine ⟨?_, ?_, ?_, rfl, rfl, rfl⟩
  · intro ok body s h hr
    exact fbr_fail_retry ok body s h hr
  · intro ok body s h
    exact fbr_success ok body s h
  · intro ok s t body hp htk
    unfold fireNext
    rw [hp]
    simp only [htk]

theorem c4_retry_protocol_witness :
    (okNone (Logger.create cfgBase 7).requests.length = false)
    ∧ ((Logger.create cfgBase 7).config.autoRetry = true)
    ∧ (Logger._flushBodyWithRetry okNone "B" (Logger.create cfgBase 7) =
        { Logger.create cfgBase 7 with
          requests := (Logger.create cfgBase 7).requests ++
            [mkRequest (Logger.create cfgBase 7) "B"],
          timers := (Logger.create cfgBase 7).timers ++ [⟨(Logger.create cfgBase 7).nextTimerId,
            (Logger.create cfgBase 7).now + (Logger.create cfgBase 7).config.autoRetryDuration,
            TimerKind.retryT "B"⟩],
          nextTimerId := (Logger.create cfgBase 7).nextTimerId + 1 }) :=
  ⟨rfl, rfl, c4_retry_protocol.1 okNone "B" (Logger.create cfgBase 7) rfl rfl⟩

theorem clearBT_noop (s : EngineState) (h : s.bufferTimeout = none) :
    Logger._clearBufferTimeout s = s := by
  simp [Logger._clearBufferTimeout, h]

/-- C5: flushing with an empty buffer performs no network call and leaves
the buffer (and request log) unchanged: the whole operation is exactly the
timer cancellation, which resolves at once without reaching the submission
path; and that cancellation is idempotent and a no-op when no timer handle
is stored — in particular immediately after construction and immediately
after a prior flush. -/
theorem c5_flush_empty_noop :
    (∀ (ok : Nat → Bool) (s : EngineState), s.buffer = [] →
      Logger.flush ok s = Logger._clearBufferTimeout s
      ∧ (Logger.flush ok s).requests = s.requests
      ∧ (Logger.flush ok s).buffer = s.buffer)
    ∧ (∀ s : EngineState, s.bufferTimeout = none → Logger._clearBufferTimeout s = s)
    ∧ (∀ s : EngineState,
        Logger._clearBufferTimeout (Logger._clearBufferTimeout s)
          = Logger._clearBufferTimeout s) := by
  refine ⟨?_, clearBT_noop, ?_⟩
  · intro ok s h
    exact ⟨flush_empty ok s h, flush_requests_empty ok s h,
      by rw [flush_buffer ok s, h]⟩
  · intro s
    exact clearBT_noop _ (clearBT_bufferTimeout s)

theorem c5_flush_empty_noop_witness :
    ((Logger.create cfgBase 0).buffer = [])
    ∧ (Logger.flush okAll (Logger.create cfgBase 0)
        = Logger._clearBufferTimeout (Logger.create cfgBase 0)
      ∧ (Logger.flush okAll (Logger.create cfgBase 0)).requests
        = (Logger.create cfgBase 0).requests
      ∧ (Logger.flush okAll (Logger.create cfgBase 0)).buffer
        = (Logger.create cfgBase 0).buffer)
    ∧ ((Logger.create cfgBase 0).bufferTimeout = none)
    ∧ (Logger._clearBufferTimeout (Logger.create cfgBase 0) = Logger.create cfgBase 0) :=
  ⟨rfl, c5_flush_empty_noop.1 okAll (Logger.create cfgBase 0) rfl, rfl,
    c5_flush_empty_noop.2.1 (Logger.create cfgBase 0) rfl⟩

/-- C6: a submission that fails while `autoRetry` is false leaves the
engine in the pre-state with exactly the one failed request appended: no
retry timer is scheduled, the buffer and timer table are untouched, and
the batch payload is retained nowhere — it is permanently dropped.  The
catch swallows the failure, so the method returns normally for every
oracle outcome: in the embedding `_flushBodyWithRetry`, `flush` and `_log`
are total functions into `EngineState`, with no error channel through
which a submission failure could reach the `record` or `flush` caller. -/
theorem c6_drop_without_retry (ok : Nat → Bool) (body : String) (s : EngineState)
    (h : ok s.requests.length = false) (hr : s.config.autoRetry = false) :
    Logger._flushBodyWithRetry ok body s =
      { s with requests := s.requests ++ [mkRequest s body] } :=
  fbr_fail_noretry ok body s h hr

theorem c6_drop_without_retry_witness :
    (okNone (stepA okNone (EngineAction.setAutoRetry false)
        (Logger.create cfgBase 3)).requests.length = false)
    ∧ ((stepA okNone (EngineAction.setAutoRetry false)
        (Logger.create cfgBase 3)).config.autoRetry = false)
    ∧ (Logger._flushBodyWithRetry okNone "B"
        (stepA okNone (EngineAction.setAutoRetry false) (Logger.create cfgBase 3)) =
      { stepA okNone (EngineAction.setAutoRetry false) (Logger.create cfgBase 3) with
        requests := (stepA okNone (EngineAction.setAutoRetry false)
            (Logger.create cfgBase 3)).requests ++
          [mkRequest (stepA okNone (EngineAction.setAutoRetry false)
            (Logger.create cfgBase 3)) "B"] }) :=
  ⟨rfl, rfl, c6_drop_without_retry okNone "B"
    (stepA okNone (EngineAction.setAutoRetry false) (Logger.create cfgBase 3)) rfl rfl⟩

theorem nodup_append_singleton {l : List Nat} {a : Nat} (h : l.Nodup) (ha : a ∉ l) :
    (l ++ [a]).Nodup := by
  rw [List.nodup_append]
  exact ⟨h, List.nodup_singleton a, List.disjoint_singleton.mpr ha⟩

theorem mem_clearTimeoutTable {t : Timer} {id : Nat} {ts : List Timer}
    (h : t ∈ clearTimeoutTable id ts) : t ∈ ts ∧ t.id ≠ id := by
  have hm := List.mem_filter.mp h
  refine ⟨hm.1, ?_⟩
  simpa using hm.2

theorem timerInv_clearBT {s : EngineState} (h : TimerInv s) :
    TimerInv (Logger._clearBufferTimeout s) := by
  obtain ⟨h1, h2, h3⟩ := h
  cases hb : s.bufferTimeout with
  | none =>
    rw [clearBT_noop s hb]
    exact ⟨h1, h2, h3⟩
  | some id =>
    simp only [Logger._clearBufferTimeout, hb]
    refine ⟨?_, ?_, ?_⟩
    · intro t ht
      exact h1 t (mem_clearTimeoutTable ht).1
    · exact (((List.filter_sublist _).map _).nodup h2 :)
    · intro t ht hf
      exfalso
      have hown := h3 t (mem_clearTimeoutTable ht).1 hf
      rw [hb] at hown
      exact (mem_clearTimeoutTable ht).2 (Option.some.inj hown).symm

theorem timerInv_fbr (ok : Nat → Bool) (body : String) {s : EngineState} (h : TimerInv s) :
    TimerInv (Logger._flushBodyWithRetry ok body s) := by
  obtain ⟨h1, h2, h3⟩ := h
  cases hk : ok s.requests.length
  · cases hr : s.config.autoRetry
    · rw [fbr_fail_noretry ok body s hk hr]
      exact ⟨h1, h2, h3⟩
    · rw [fbr_fail_retry ok body s hk hr]
      refine ⟨?_, ?_, ?_⟩
      · intro t ht
        rcases List.mem_append.mp ht with hm | hm
        · exact Nat.lt_succ_of_lt (h1 t hm)
        · simp only [List.mem_singleton] at hm
          rw [hm]
          exact Nat.lt_succ_self _
      · rw [List.map_append]
        refine nodup_append_singleton h2 ?_
        intro hc
        obtain ⟨t, htm, hid⟩ := List.mem_map.mp hc
        exact absurd (hid ▸ h1 t htm) (Nat.lt_irrefl _)
      · intro t ht hf
        rcases List.mem_append.mp ht with hm | hm
        · exact h3 t hm hf
        · simp only [List.mem_singleton] at hm
          rw [hm] at hf
          simp [isFlushTimer] at hf
  · rw [fbr_success ok body s hk]
    exact ⟨h1, h2, h3⟩

theorem timerInv_startBT {s : EngineState} (h : TimerInv s) :
    TimerInv (Logger._startOrResetBufferTimeout s) := by
  obtain ⟨h1, h2, h3⟩ := h
  have hsub : ∀ t, t ∈ (match s.bufferTimeout with
      | none => s.timers
      | some id => clearTimeoutTable id s.timers) → t ∈ s.timers := by
    intro t ht
    cases hb : s.bufferTimeout with
    | none => rw [hb] at ht; exact ht
    | some id => rw [hb] at ht; exact (mem_clearTimeoutTable ht).1
  have hclnoflush : ∀ t, t ∈ (match s.bufferTimeout with
      | none => s.timers
      | some id => clearTimeoutTable id s.timers) → isFlushTimer t = true → False := by
    intro t ht hf
    cases hb : s.bufferTimeout with
    | none =>
      rw [hb] at ht
      have hown := h3 t ht hf
      rw [hb] at hown
      exact Option.noConfusion hown
    | some id =>
      rw [hb] at ht
      have hown := h3 t (mem_clearTimeoutTable ht).1 hf
      rw [hb] at hown
      exact (mem_clearTimeoutTable ht).2 (Option.some.inj hown).symm
  have hmapsub : ((match s.bufferTimeout with
      | none => s.timers
      | some id => clearTimeoutTable id s.timers).map (fun (t : Timer) => t.id)).Sublist
        (s.timers.map (fun (t : Timer) => t.id)) := by
    cases hb : s.bufferTimeout with
    | none => exact List.Sublist.refl _
    | some id => exact (List.filter_sublist _).map _
  refine ⟨?_, ?_, ?_⟩
  · rw [startBT_timers, startBT_nextTimerId]
    intro t ht
    rcases List.mem_append.mp ht with hm | hm
    · exact Nat.lt_succ_of_lt (h1 t (hsub t hm))
    · simp only [List.mem_singleton] at hm
      rw [hm]
      exact Nat.lt_succ_self _
  · rw [startBT_timers, List.map_append]
    refine nodup_append_singleton (hmapsub.nodup h2) ?_
    intro hc
    obtain ⟨t, htm, hid⟩ := List.mem_map.mp hc
    exact absurd (hid ▸ h1 t (hsub t htm)) (Nat.lt_irrefl _)
  · rw [startBT_timers, startBT_bufferTimeout]
    intro t ht hf
    rcases List.mem_append.mp ht with hm | hm
    · exact absurd hf (by intro hf2; exact hclnoflush t hm hf2)
    · simp only [List.mem_singleton] at hm
      rw [hm]

theorem timerInv_flush (ok : Nat → Bool) {s : EngineState} (h : TimerInv s) :
    TimerInv (Logger.flush ok s) := by
  by_cases hb : s.buffer = []
  · rw [flush_empty ok s hb]
    exact timerInv_clearBT h
  · rw [flush_nonempty ok s hb]
    exact timerInv_fbr ok _ (timerInv_clearBT h)

theorem timerInv_log (ok : Nat → Bool) (lt en : String) (d : Option Json) {s : EngineState}
    (h : TimerInv s) : TimerInv (Logger._log ok lt en d s) := by
  have hcs : TimerInv (consoleStep lt en s) := by
    unfold consoleStep
    split
    · exact h
    · exact h
  cases hen : s.config.enabled
  · rw [log_disabled ok lt en d s hen]
    exact hcs
  · by_cases hlen : s.config.maxBuffer ≤ s.buffer.length + 1
    · rw [log_at_state ok lt en d s hen hlen]
      exact timerInv_flush ok (timerInv_startBT hcs)
    · rw [log_below_state ok lt en d s hen hlen]
      exact timerInv_startBT hcs

theorem timerInv_fireNext (ok : Nat → Bool) {s : EngineState} (h : TimerInv s) :
    TimerInv (fireNext ok s) := by
  obtain ⟨h1, h2, h3⟩ := h
  unfold fireNext
  cases hp : pickEarliest (dueTimers s) with
  | none => exact ⟨h1, h2, h3⟩
  | some t =>
    have hs1 : TimerInv { s with timers := clearTimeoutTable t.id s.timers } := by
      refine ⟨?_, ?_, ?_⟩
      · intro u hu
        exact h1 u (mem_clearTimeoutTable hu).1
      · exact (((List.filter_sublist _).map _).nodup h2 :)
      · intro u hu hf
        exact h3 u (mem_clearTimeoutTable hu).1 hf
    cases htk : t.kind with
    | flushT =>
      simp only [htk]
      exact timerInv_flush ok hs1
    | retryT body =>
      simp only [htk]
      exact timerInv_fbr ok body hs1

theorem timerInv_step (ok : Nat → Bool) (a : EngineAction) {s : EngineState}
    (h : TimerInv s) : TimerInv (stepA ok a s) := by
  cases a with
  | record lt en d => exact timerInv_log ok lt en d h
  | flushCall => exact timerInv_flush ok h
  | advance d => exact h
  | fire => exact timerInv_fireNext ok h
  | enableA => exact h
  | disableA => exact h
  | setAutoRetry b => exact h

theorem timerInv_run (ok : Nat → Bool) (acts : List EngineAction) {s : EngineState}
    (h : TimerInv s) : TimerInv (runA ok acts s) := by
  induction acts generalizing s with
  | nil => exact h
  | cons a rest ih =>
    exact ih (timerInv_step ok a h)

theorem timerInv_create (cfg : LoggerConfiguration) (t0 : Nat) :
    TimerInv (Logger.create cfg t0) :=
  ⟨fun t ht => absurd ht (List.not_mem_nil t), List.nodup_nil,
   fun t ht => absurd ht (List.not_mem_nil t)⟩

theorem nodup_all_eq_length_le {l : List Nat} (c : Nat) (h : l.Nodup)
    (he : ∀ x ∈ l, x = c) : l.length ≤ 1 := by
  match l with
  | [] => simp
  | [x] => simp
  | x :: y :: rest =>
    exfalso
    have hx : x = c := he x (by simp)
    have hy : y = c := he y (by simp)
    have hxy : x ≠ y := by
      have hn := List.nodup_cons.mp h
      intro hxy
      exact hn.1 (hxy ▸ List.mem_cons_self y rest)
    exact hxy (hx.trans hy.symm)

theorem timerInv_count {s : EngineState} (h : TimerInv s) : flushTimerCount s ≤ 1 := by
  obtain ⟨h1, h2, h3⟩ := h
  unfold flushTimerCount
  cases hb : s.bufferTimeout with
  | none =>
    have hnil : s.timers.filter isFlushTimer = [] := by
      rw [List.filter_eq_nil_iff]
      intro t ht hf
      have hown := h3 t ht hf
      rw [hb] at hown
      exact Option.noConfusion hown
    rw [hnil]
    simp
  | some id =>
    have hsubn : ((s.timers.filter isFlushTimer).map (fun t => t.id)).Nodup :=
      ((List.filter_sublist _).map _).nodup h2
    have hall : ∀ x ∈ (s.timers.filter isFlushTimer).map (fun t => t.id), x = id := by
      intro x hx
      obtain ⟨t, htm, rfl⟩ := List.mem_map.mp hx
      have hm := List.mem_filter.mp htm
      have hown := h3 t hm.1 hm.2
      rw [hb] at hown
      exact (Option.some.inj hown).symm
    have hlen := nodup_all_eq_length_le id hsubn hall
    simpa using hlen

/-- C7: every engine instance holds at most one pending automatic-flush
timer at any time, across every sequence of stimuli from construction:
each record cancels the stored handle before arming a fresh timer, each
flush cancels it, and retry timers are distinct entries not counted here.
The single-slot property is an invariant of the reachable states. -/
theorem c7_single_flush_timer (cfg : LoggerConfiguration) (t0 : Nat) (ok : Nat → Bool)
    (acts : List EngineAction) :
    flushTimerCount (runA ok acts (Logger.create cfg t0)) ≤ 1 :=
  timerInv_count (timerInv_run ok acts (timerInv_create cfg t0))

theorem except_bind_ok {α β : Type} (e : Except String α) (g : α → Except String β)
    (he : exceptOk e = true) (hg : ∀ a, ∃ b, g a = Except.ok b) :
    ∃ b, e.bind g = Except.ok b := by
  cases e with
  | error err => simp [exceptOk] at he
  | ok a =>
    obtain ⟨b, hb⟩ := hg a
    exact ⟨b, by simp [Except.bind, hb]⟩

/-- C8 counterexample: the claim says `record` never fails regardless of
the configured error formatter or interceptor, but `_log` invokes both
callbacks with no try/catch, so a throwing error formatter propagates out
of the synchronous `record` call.  In the embedding with host-language
fallibility made explicit (`logE`), a formatter that throws makes the
whole call throw. -/
theorem c8_record_throwing_formatter :
    Logger.logE (fun _ => Except.error "boom") none okAll "error" "e" none
      (Logger.create cfgBase 0) = Except.error "boom" := rfl

/-- C8 (amended): `record` returns no value, never blocks, and never
fails provided the configured error formatter and the interceptor (when
set) return normally on every input; under those hypotheses the fallible
embedding of `_log` always returns a state normally, whatever the details
argument.  (Without the proviso the claim is false: see the
counterexample with a throwing formatter.) -/
theorem c8_record_total (fmt : Option Json → Except String (Option Json))
    (icp : Option (Json → Except String Json)) (ok : Nat → Bool)
    (lt en : String) (d : Option Json) (s : EngineState)
    (hfmt : ∀ x, exceptOk (fmt x) = true)
    (hicp : ∀ f, icp = some f → ∀ j, exceptOk (f j) = true) :
    ∃ s2, Logger.logE fmt icp ok lt en d s = Except.ok s2 := by
  unfold Logger.logE
  dsimp only
  split <;> split <;>
    first
    | exact ⟨_, rfl⟩
    | (refine except_bind_ok _ _ (hfmt d) ?_
       intro fr
       refine except_bind_ok _ _ ?_ (fun a => ⟨_, rfl⟩)
       cases icp with
       | none => rfl
       | some f => exact hicp f rfl _)

theorem c8_record_total_witness :
    (∀ x : Option Json, exceptOk ((fun y => Except.ok y) x) = true)
    ∧ (∃ s2, Logger.logE (fun y => Except.ok y) none okAll "info" "e" none
        (Logger.create cfgBase 0) = Except.ok s2) :=
  ⟨fun _ => rfl,
    c8_record_total (fun y => Except.ok y) none okAll "info" "e" none
      (Logger.create cfgBase 0) (fun _ => rfl) (fun _ h => Option.noConfusion h)⟩

theorem lookup_time_toFields (m : SplunkMeta) (h : m.time = none) :
    List.lookup "time" m.toFields = none := by
  unfold SplunkMeta.toFields
  rw [h]
  cases m.host <;> cases m.source <;> cases m.sourcetype <;> cases m.index <;>
    cases m.fields <;> simp [List.lookup]

/-- C9: when the configured `splunkMeta` supplies no explicit `time`, the
`time` field of the envelope built by `_buildSplunkMeta` is the clock value
divided exactly by 1000, as a rational: whole seconds with the millisecond
fraction.  Concretely a clock of 12345 yields `time = 12.345`. -/
theorem c9_default_time :
    (∀ (cfg : CoreLoggerConfiguration) (now : Nat),
      explicitMetaTime cfg = none →
      List.lookup "time" (Logger._buildSplunkMeta cfg now)
        = some (Json.num ((now : ℚ) / 1000)))
    ∧ List.lookup "time" (Logger._buildSplunkMeta (mkCoreConfig cfgBase) 12345)
        = some (Json.num (12.345 : ℚ)) := by
  have hgen : ∀ (cfg : CoreLoggerConfiguration) (now : Nat),
      explicitMetaTime cfg = none →
      List.lookup "time" (Logger._buildSplunkMeta cfg now)
        = some (Json.num ((now : ℚ) / 1000)) := by
    intro cfg now h
    unfold explicitMetaTime at h
    unfold Logger._buildSplunkMeta
    dsimp only
    cases hm : Logger.evalSplunkMeta cfg.splunkMeta with
    | none =>
      simp [objMerge, List.lookup]
    | some m =>
      rw [hm] at h
      have htime : List.lookup "time" m.toFields = none := lookup_time_toFields m h
      simp [objMerge, List.lookup, htime]
  refine ⟨hgen, ?_⟩
  have hc := hgen (mkCoreConfig cfgBase) 12345 rfl
  rw [hc]
  norm_num

theorem c9_default_time_witness :
    (explicitMetaTime (mkCoreConfig cfgBase) = none)
    ∧ List.lookup "time" (Logger._buildSplunkMeta (mkCoreConfig cfgBase) 7000)
        = some (Json.num (((7000 : Nat) : ℚ) / 1000)) :=
  ⟨rfl, c9_default_time.1 (mkCoreConfig cfgBase) 7000 rfl⟩

/-- C10: while the logger is disabled, `_log` performs only the optional
console mirror — the resulting state is exactly `consoleStep` of the old
one, so the buffer, the pending-timer handle, the timer table and the
request log are all unchanged, nothing is armed or submitted, and the
event is never buffered, hence can never be sent later; re-enabling
restores normal buffering: after `enable`, a below-threshold record
appends its serialized event to the buffer as usual. -/
theorem c10_disabled_frame (ok : Nat → Bool) (lt en : String) (d : Option Json)
    (s : EngineState) (h : s.config.enabled = false) :
    Logger._log ok lt en d s = consoleStep lt en s
    ∧ ((Logger.enable s).config.enabled = true)
    ∧ (¬ ((Logger.enable s).config.maxBuffer ≤ (Logger.enable s).buffer.length + 1) →
       (Logger._log ok lt en d (Logger.enable s)).buffer
         = (Logger.enable s).buffer ++ [Logger.serializeEvent (Logger.enable s).config
             (Logger.enable s).interceptor (Logger.enable s).now lt en d]) := by
  refine ⟨log_disabled ok lt en d s h, rfl, ?_⟩
  intro hlen
  exact log_below_buffer ok lt en d (Logger.enable s) rfl hlen

theorem c10_disabled_frame_witness :
    ((stepA okAll EngineAction.disableA (Logger.create cfgBase 0)).config.enabled = false)
    ∧ (Logger._log okAll "info" "x" none
        (stepA okAll EngineAction.disableA (Logger.create cfgBase 0))
      = consoleStep "info" "x" (stepA okAll EngineAction.disableA (Logger.create cfgBase 0)))
    ∧ (¬ ((Logger.enable (stepA okAll EngineAction.disableA
            (Logger.create cfgBase 0))).config.maxBuffer
        ≤ (Logger.enable (stepA okAll EngineAction.disableA
            (Logger.create cfgBase 0))).buffer.length + 1))
    ∧ ((Logger._log okAll "info" "x" none (Logger.enable (stepA okAll EngineAction.disableA
          (Logger.create cfgBase 0)))).buffer
      = (Logger.enable (stepA okAll EngineAction.disableA
          (Logger.create cfgBase 0))).buffer
        ++ [Logger.serializeEvent
            (Logger.enable (stepA okAll EngineAction.disableA
              (Logger.create cfgBase 0))).config
            (Logger.enable (stepA okAll EngineAction.disableA
              (Logger.create cfgBase 0))).interceptor
            (Logger.enable (stepA okAll EngineAction.disableA
              (Logger.create cfgBase 0))).now "info" "x" none]) :=
  ⟨rfl,
    (c10_disabled_frame okAll "info" "x" none
      (stepA okAll EngineAction.disableA (Logger.create cfgBase 0)) rfl).1,
    by decide,
    (c10_disabled_frame okAll "info" "x" none
      (stepA okAll EngineAction.disableA (Logger.create cfgBase 0)) rfl).2.2 (by decide)⟩
